import Mathlib

/-!
Shallow embedding of the chat/messaging unread-tracking and identity-derivation
subsystem of the readcount app, translated from `src/app/_layout.tsx` (ChatScreen)
and `src/app/(tabs)/settings.tsx` (username cooldown).

Remote Firestore documents are modelled as explicit state:
* the per-conversation summary document (`chats/{chatId}`) as `ChatDoc`,
* the message subcollection (`chats/{chatId}/messages`) as a list in append order,
* the `users` collection as an association list.

Machine-level caveats of the source that the model fixes explicitly:
* `Timestamp.now()` is the *sending client's* clock; it is a plain input `now`.
* `addDoc` assigns a document identifier the client never chooses; the model
  assigns the next natural number, which realises the backend's freshness
  contract for log-assigned identifiers.
* JavaScript's default array sort compares strings by UTF-16 code units;
  `lexLe` below is that comparison (identical to code-point order on the
  ASCII alphabet of Firebase uids).
* `String.prototype.trim` strips leading and trailing whitespace; `trimChars`
  is that operation on the character list (identical on ASCII whitespace).
-/

/-- Code-unit lexicographic comparison of character lists, the comparison the
JavaScript default array sort applies to strings. -/
def lexLe : List Char → List Char → Bool
  | [], _ => true
  | _ :: _, [] => false
  | a :: as, b :: bs =>
    if a < b then true
    else if b < a then false
    else lexLe as bs

/-- String comparison used by `[x, y].sort()` in the source. -/
def strLe (a b : String) : Bool :=
  lexLe a.data b.data

/-- Conversation-identifier derivation, from
`const chatId = [currentUser?.uid, recipientId].sort().join('_')`
in `src/app/_layout.tsx`. -/
def deriveConversationId (a b : String) : String :=
  if strLe a b then a ++ "_" ++ b else b ++ "_" ++ a

/-- Reading a field of the `unreadCounts` map of a chat document; a missing
field reads as 0, matching `unreadCounts[item.id] || 0` in `src/app/(tabs)/dm.tsx`
and Firestore's `increment` treating a missing field as 0. -/
def getCount : List (String × Nat) → String → Nat
  | [], _ => 0
  | (k, v) :: rest, u => if k = u then v else getCount rest u

/-- Writing a field of the `unreadCounts` map (Firestore `updateDoc` with a
field path: overwrite when present, create when absent). -/
def setCount : List (String × Nat) → String → Nat → List (String × Nat)
  | [], u, v => [(u, v)]
  | (k, w) :: rest, u, v =>
    if k = u then (k, v) :: rest else (k, w) :: setCount rest u v

/-- Firestore's atomic `increment(1)` transform on an `unreadCounts` field. -/
def incCount (m : List (String × Nat)) (u : String) : List (String × Nat) :=
  setCount m u (getCount m u + 1)

/-- A message document of the `chats/{chatId}/messages` subcollection, as
written by `sendMessage` in `src/app/_layout.tsx`.  The `id` is the
log-assigned document identifier; `createdAt` is the `Timestamp.now()` value
written into the document, in milliseconds. -/
structure Message where
  id : Nat
  text : String
  imageUrl : Option String
  senderId : String
  createdAt : Nat
  participants : List String
  deriving DecidableEq

/-- The `chats/{chatId}` summary document written by `sendMessage`
(`setDoc` with merge, then `updateDoc` incrementing the recipient's
unread-count field). -/
structure ChatDoc where
  lastMessage : String
  lastMessageTimestamp : Nat
  participants : List String
  unreadCounts : List (String × Nat)
  deriving DecidableEq

/-- The remote state of one conversation: the summary document (absent until
first written), the message log in append order, and the next log-assigned
message identifier. -/
structure ConvState where
  chatDoc : Option ChatDoc
  log : List Message
  nextId : Nat
  deriving DecidableEq

/-- The moderation-relevant part of a `users/{uid}` document. -/
structure UserDoc where
  isBanned : Bool
  deriving DecidableEq

/-- Lookup of a `users/{uid}` document. -/
def lookupUser : List (String × UserDoc) → String → Option UserDoc
  | [], _ => none
  | (k, u) :: rest, x => if k = x then some u else lookupUser rest x

/-- `checkBanStatus` of `src/app/_layout.tsx`: the local `isBanned` flag is set
exactly when the user document exists and carries `isBanned` true. -/
def checkBanStatus (users : List (String × UserDoc)) (uid : String) : Bool :=
  match lookupUser users uid with
  | some u => u.isBanned
  | none => false

/-- The inputs `sendMessage` reads: the component's `isBanned` flag, the
authenticated user (`auth.currentUser`), the text field, the optional image
data-URI argument, the recipient, and the sending client's clock reading
(`Timestamp.now()`), in milliseconds. -/
structure SendInput where
  isBanned : Bool
  currentUser : Option String
  inputText : String
  imageUrl : Option String
  recipientId : String
  now : Nat
  deriving DecidableEq

/-- The three distinct pre-write rejections of `sendMessage`: the banned alert,
the silent return on empty text with no image (or no authenticated user), and
the image-size alert. -/
inductive SendError where
  | banned
  | emptyMessage
  | imageTooLarge
  deriving DecidableEq

/-- Removal of leading and trailing whitespace from a character list;
`String.prototype.trim` of the source on its character content. -/
def trimChars (l : List Char) : List Char :=
  ((l.dropWhile Char.isWhitespace).reverse.dropWhile Char.isWhitespace).reverse

/-- `inputText.trim()` of the source. -/
def strTrim (s : String) : String :=
  String.mk (trimChars s.data)

/-- Length of the optional image payload; `imageUrl && imageUrl.length > cap`
in the source is `imageSize imageUrl > cap`, a missing payload having size 0. -/
def imageSize : Option String → Nat
  | none => 0
  | some s => s.length

/-- The write path of `sendMessage` once all pre-write checks passed:
`addDoc` of the message document, `setDoc` with merge of the summary fields
(which leaves an existing `unreadCounts` map untouched and creates the
document without one), then `updateDoc` incrementing the recipient's
unread-count field. -/
def doSend (st : ConvState) (uid : String) (inp : SendInput) :
    ConvState × Except SendError Message :=
  let text := strTrim inp.inputText
  let msg : Message :=
    { id := st.nextId
      text := text
      imageUrl := inp.imageUrl
      senderId := uid
      createdAt := inp.now
      participants := [uid, inp.recipientId] }
  let oldCounts :=
    match st.chatDoc with
    | some cd => cd.unreadCounts
    | none => []
  let updated : ChatDoc :=
    { lastMessage := if inp.imageUrl.isSome then "Sent an image" else text
      lastMessageTimestamp := inp.now
      participants := [uid, inp.recipientId]
      unreadCounts := incCount oldCounts inp.recipientId }
  ({ chatDoc := some updated, log := st.log ++ [msg], nextId := st.nextId + 1 },
    Except.ok msg)

/-- `sendMessage` of `src/app/_layout.tsx`.  The checks run in source order:
the banned flag, then `(inputText.trim().length === 0 && !imageUrl) ||
!currentUser` (both disjuncts are the same silent return, modelled as
`SendError.emptyMessage`), then `imageUrl.length > 1040000`; only then the
remote writes happen. -/
def sendMessage (st : ConvState) (inp : SendInput) :
    ConvState × Except SendError Message :=
  if inp.isBanned then (st, Except.error SendError.banned)
  else
    match inp.currentUser with
    | none => (st, Except.error SendError.emptyMessage)
    | some uid =>
      if (strTrim inp.inputText).length = 0 ∧ inp.imageUrl = none then
        (st, Except.error SendError.emptyMessage)
      else if imageSize inp.imageUrl > 1040000 then
        (st, Except.error SendError.imageTooLarge)
      else
        doSend st uid inp

/-- `resetUnreadCount` of `src/app/_layout.tsx`: when the chat document exists,
`updateDoc` sets the entering user's unread-count field to 0; when it does not
exist, nothing is written. -/
def resetUnreadCount (st : ConvState) (uid : String) : ConvState :=
  match st.chatDoc with
  | none => st
  | some cd =>
    { st with chatDoc := some { cd with unreadCounts := setCount cd.unreadCounts uid 0 } }

/-- The unread count a participant observes for a conversation: 0 while no
summary document exists, otherwise the `unreadCounts` field for the user. -/
def getUnread (st : ConvState) (uid : String) : Nat :=
  match st.chatDoc with
  | none => 0
  | some cd => getCount cd.unreadCounts uid

/-- The order the subscription query delivers messages in:
`orderBy('createdAt', 'asc')` with the backend's final tie-break on the
document identifier, ascending. -/
def msgLe (m1 m2 : Message) : Bool :=
  Nat.blt m1.createdAt m2.createdAt ||
    (Nat.beq m1.createdAt m2.createdAt && Nat.ble m1.id m2.id)

/-- The message sequence a subscriber to one conversation observes:
the log, sorted by the subscription query's order. -/
def subscribeView (log : List Message) : List Message :=
  log.mergeSort msgLe

/-- A log whose messages were appended at strictly increasing creation
timestamps. -/
def chronological : List Message → Bool
  | [] => true
  | [_] => true
  | m1 :: m2 :: rest => decide (m1.createdAt < m2.createdAt) && chronological (m2 :: rest)

/-- `calculateDaysSinceLastChange` of `src/app/(tabs)/settings.tsx`:
31 when no last change is recorded, otherwise
`Math.ceil(|now - lastChange| / 86400000)` on millisecond clock values
(the double division behaves as exact ceiling division on integer
millisecond inputs of realistic magnitude). -/
def calculateDaysSinceLastChange (lastUsernameChange : Option Int) (now : Int) : Nat :=
  match lastUsernameChange with
  | none => 31
  | some last => ((now - last).natAbs + (86400000 - 1)) / 86400000

/-- The two pre-write rejections of `handleUpdateUsername`. -/
inductive UsernameError where
  | tooShort
  | cooldownActive
  deriving DecidableEq

/-- The username fields of the current user's profile that
`handleUpdateUsername` reads and writes. -/
structure ProfileState where
  username : String
  lastUsernameChange : Option Int
  deriving DecidableEq

/-- `handleUpdateUsername` of `src/app/(tabs)/settings.tsx`: reject names
shorter than 3 characters, reject while `calculateDaysSinceLastChange` is
below 30, otherwise write the new name and stamp `lastUsernameChange` with
`Timestamp.now()`. -/
def handleUpdateUsername (st : ProfileState) (newUsername : String) (now : Int) :
    ProfileState × Option UsernameError :=
  if newUsername.length < 3 then
    (st, some UsernameError.tooShort)
  else if calculateDaysSinceLastChange st.lastUsernameChange now < 30 then
    (st, some UsernameError.cooldownActive)
  else
    ({ username := newUsername, lastUsernameChange := some now }, none)

/-- A conversation state with no summary document and an empty log. -/
def exSt0 : ConvState :=
  { chatDoc := none, log := [], nextId := 0 }

/-- A plain text send from `u1` to `u2` at client time `t`. -/
def exInp (t : Nat) : SendInput :=
  { isBanned := false, currentUser := some "u1", inputText := "hi"
    imageUrl := none, recipientId := "u2", now := t }

/-- The message `exInp t` appends to the empty conversation. -/
def exMsg (t : Nat) : Message :=
  { id := 0, text := "hi", imageUrl := none, senderId := "u1"
    createdAt := t, participants := ["u1", "u2"] }

/-- The conversation state after sending `exInp t` from the empty state. -/
def exStAfter (t : Nat) : ConvState :=
  { chatDoc := some
      { lastMessage := "hi", lastMessageTimestamp := t
        participants := ["u1", "u2"], unreadCounts := [("u2", 1)] }
    log := [exMsg t]
    nextId := 1 }

/-- A send attempt whose text is whitespace only and which carries no image. -/
def exInpBlank : SendInput :=
  { isBanned := false, currentUser := some "u1", inputText := "   "
    imageUrl := none, recipientId := "u2", now := 5 }

/-- A users collection in which `u1` is banned. -/
def exUsersBanned : List (String × UserDoc) :=
  [("u1", { isBanned := true })]

/-- A send attempt by `u1` whose banned flag was loaded from `exUsersBanned`. -/
def exInpBanned : SendInput :=
  { isBanned := checkBanStatus exUsersBanned "u1", currentUser := some "u1"
    inputText := "hi", imageUrl := none, recipientId := "u2", now := 5 }

/-- An image payload one byte over the 1040000-character cap of `sendMessage`. -/
def bigImg : String :=
  String.mk (List.replicate 1040001 'a')

/-- A send attempt carrying the oversized payload `bigImg`. -/
def exInpBig : SendInput :=
  { isBanned := false, currentUser := some "u1", inputText := ""
    imageUrl := some bigImg, recipientId := "u2", now := 5 }

/-- A three-message log appended at strictly increasing timestamps. -/
def exLog3 : List Message :=
  [exMsg 1, { exMsg 2 with id := 1 }, { exMsg 3 with id := 2 }]

/-- A profile whose username was last changed at millisecond 0. -/
def exProf : ProfileState :=
  { username := "old", lastUsernameChange := some 0 }

/-! Helper lemmas about the unread-count map. -/

theorem getCount_setCount_self (m : List (String × Nat)) (k : String) (v : Nat) :
    getCount (setCount m k v) k = v := by
  induction m with
  | nil => simp [setCount, getCount]
  | cons p rest ih =>
    obtain ⟨k0, w⟩ := p
    by_cases h : k0 = k
    · simp [setCount, h, getCount]
    · simp [setCount, h, getCount, ih]

theorem getCount_setCount_ne (m : List (String × Nat)) (k u : String) (v : Nat)
    (h : u ≠ k) : getCount (setCount m k v) u = getCount m u := by
  have h2 : k ≠ u := Ne.symm h
  induction m with
  | nil => simp [setCount, getCount, h2]
  | cons p rest ih =>
    obtain ⟨k0, w⟩ := p
    by_cases h0 : k0 = k
    · subst h0
      simp [setCount, getCount, h2]
    · simp only [setCount, if_neg h0, getCount]
      by_cases h1 : k0 = u
      · simp [h1]
      · simp [h1, ih]

theorem setCount_setCount (m : List (String × Nat)) (k : String) (v w : Nat) :
    setCount (setCount m k v) k w = setCount m k w := by
  induction m with
  | nil => simp [setCount]
  | cons p rest ih =>
    obtain ⟨k0, w0⟩ := p
    by_cases h : k0 = k
    · simp [setCount, h]
    · simp [setCount, h, ih]

/-- C3: `resetUnread(conversationId, userId)` sets the summary's unreadCounts
entry for userId to 0 (a conversation with no summary document reads as 0
unchanged), and it is idempotent: a second immediate call with no intervening
message leaves the count at 0 and does not change the state at all. -/
theorem resetUnread_zero_idempotent (st : ConvState) (u : String) :
    getUnread (resetUnreadCount st u) u = 0 ∧
    resetUnreadCount (resetUnreadCount st u) u = resetUnreadCount st u := by
  cases hcd : st.chatDoc with
  | none => simp [resetUnreadCount, hcd, getUnread]
  | some cd =>
    constructor
    · simp [resetUnreadCount, hcd, getUnread, getCount_setCount_self]
    · simp [resetUnreadCount, hcd, setCount_setCount]

/-- C2: after every successful send by A to B, the summary's unread count for
the recipient B increases by exactly 1, and the sender A's own unread count is
unchanged. -/
theorem send_increments_recipient_unread (st : ConvState) (inp : SendInput)
    (st2 : ConvState) (m : Message) (A B : String)
    (hA : inp.currentUser = some A) (hB : inp.recipientId = B) (hAB : A ≠ B)
    (h : sendMessage st inp = (st2, Except.ok m)) :
    getUnread st2 B = getUnread st B + 1 ∧ getUnread st2 A = getUnread st A := by
  unfold sendMessage at h
  by_cases hb : inp.isBanned = true
  · rw [if_pos hb] at h
    simp at h
  · rw [if_neg hb] at h
    simp only [hA] at h
    by_cases he : (strTrim inp.inputText).length = 0 ∧ inp.imageUrl = none
    · rw [if_pos he] at h
      simp at h
    · rw [if_neg he] at h
      by_cases hsz : imageSize inp.imageUrl > 1040000
      · rw [if_pos hsz] at h
        simp at h
      · rw [if_neg hsz] at h
        unfold doSend at h
        simp only [Prod.mk.injEq, Except.ok.injEq] at h
        obtain ⟨hst, hm⟩ := h
        subst hst
        subst hB
        cases hcd : st.chatDoc with
        | none =>
          simp [getUnread, hcd, incCount, getCount_setCount_self,
            getCount_setCount_ne _ _ _ _ hAB, getCount, Ne.symm hAB]
        | some cd =>
          simp [getUnread, hcd, incCount, getCount_setCount_self,
            getCount_setCount_ne _ _ _ _ hAB, Ne.symm hAB]

/-- Witness for C2 at a concrete send: `u1` sends "hi" to `u2` in a fresh
conversation; `u2`'s unread count rises from 0 to 1 and `u1`'s stays 0. -/
theorem send_increments_recipient_unread_witness :
    getUnread (exStAfter 5) "u2" = getUnread exSt0 "u2" + 1 ∧
    getUnread (exStAfter 5) "u1" = getUnread exSt0 "u1" :=
  send_increments_recipient_unread exSt0 (exInp 5) (exStAfter 5) (exMsg 5)
    "u1" "u2" rfl rfl (by decide) rfl

/-- C4: an append attempt whose text is empty after trimming and which carries
no image payload is rejected as the validation error before any remote call;
the state, and with it the conversation's message log, is unchanged. -/
theorem empty_send_rejected (st : ConvState) (inp : SendInput)
    (hban : inp.isBanned = false)
    (htext : (strTrim inp.inputText).length = 0)
    (himg : inp.imageUrl = none) :
    sendMessage st inp = (st, Except.error SendError.emptyMessage) := by
  unfold sendMessage
  rw [hban]
  simp only [Bool.false_eq_true, if_false]
  cases hu : inp.currentUser with
  | none => rfl
  | some uid => simp [htext, himg]

/-- Witness for C4: a whitespace-only text with no image is rejected and the
fresh conversation state is untouched. -/
theorem empty_send_rejected_witness :
    sendMessage exSt0 exInpBlank = (exSt0, Except.error SendError.emptyMessage) :=
  empty_send_rejected exSt0 exInpBlank rfl (by decide) rfl

/-- C5: an append attempt by a banned sender (banned flag as loaded by
`checkBanStatus` from a users collection whose document carries
`isBanned: true`) fails with the permission error before any remote write,
and the conversation's message log is unchanged. -/
theorem banned_send_rejected (users : List (String × UserDoc)) (uid : String)
    (u : UserDoc) (st : ConvState) (inp : SendInput)
    (hu : lookupUser users uid = some u) (hb : u.isBanned = true)
    (hflag : inp.isBanned = checkBanStatus users uid) :
    sendMessage st inp = (st, Except.error SendError.banned) ∧
    (sendMessage st inp).1.log = st.log := by
  have hban : inp.isBanned = true := by
    rw [hflag]
    unfold checkBanStatus
    rw [hu]
    exact hb
  have hsend : sendMessage st inp = (st, Except.error SendError.banned) := by
    unfold sendMessage
    rw [hban]
    simp
  exact ⟨hsend, by rw [hsend]⟩

/-- Witness for C5: banned `u1` attempts a send; it is rejected and the log is
identical before and after. -/
theorem banned_send_rejected_witness :
    sendMessage exSt0 exInpBanned = (exSt0, Except.error SendError.banned) ∧
    (sendMessage exSt0 exInpBanned).1.log = exSt0.log :=
  banned_send_rejected exUsersBanned "u1" { isBanned := true } exSt0 exInpBanned
    rfl rfl rfl

/-- C9: an append attempt whose image payload exceeds the 1040000-character
cap is rejected with the payload-too-large error before any write: the
resulting state is the prior state, so zero remote writes occur. -/
theorem oversized_image_rejected (st : ConvState) (inp : SendInput)
    (uid : String) (img : String) (hban : inp.isBanned = false)
    (huser : inp.currentUser = some uid) (himg : inp.imageUrl = some img)
    (hsize : img.length > 1040000) :
    sendMessage st inp = (st, Except.error SendError.imageTooLarge) := by
  unfold sendMessage
  rw [hban, huser]
  simp [himg, imageSize, hsize]

/-- Length of the oversized example payload, one character over the cap. -/
theorem bigImg_length : bigImg.length = 1040001 :=
  List.length_replicate 1040001 'a'

/-- Witness for C9: a payload of 1040001 characters is rejected and the state
is untouched. -/
theorem oversized_image_rejected_witness :
    sendMessage exSt0 exInpBig = (exSt0, Except.error SendError.imageTooLarge) :=
  oversized_image_rejected exSt0 exInpBig "u1" bigImg rfl rfl rfl
    (by rw [bigImg_length]; omega)

/-- Counterexample for C7: the stored creation timestamp is exactly the
sending client's clock reading (`Timestamp.now()` in `sendMessage`), not a
server-assigned time: two sends that differ only in the client clock value
(100 and 200) store exactly those two client values. -/
theorem send_timestamp_client_counterexample :
    ((sendMessage exSt0 (exInp 100)).2.toOption.map Message.createdAt = some 100) ∧
    ((sendMessage exSt0 (exInp 200)).2.toOption.map Message.createdAt = some 200) :=
  ⟨rfl, rfl⟩

/-- C7 as amended: every successfully appended message carries a fresh
log-assigned identifier (fresh relative to every identifier already in the
log) and is appended to the log, but its creation timestamp is the sending
client's clock reading, not a server-assigned time. -/
theorem send_fresh_id_client_timestamp (st : ConvState) (inp : SendInput)
    (st2 : ConvState) (m : Message)
    (hwf : ∀ msg ∈ st.log, msg.id < st.nextId)
    (h : sendMessage st inp = (st2, Except.ok m)) :
    m.id ∉ st.log.map Message.id ∧ m.createdAt = inp.now ∧
    st2.log = st.log ++ [m] := by
  unfold sendMessage at h
  by_cases hb : inp.isBanned = true
  · rw [if_pos hb] at h
    simp at h
  · rw [if_neg hb] at h
    cases hcu : inp.currentUser with
    | none =>
      simp only [hcu] at h
      simp at h
    | some uid =>
      simp only [hcu] at h
      by_cases he : (strTrim inp.inputText).length = 0 ∧ inp.imageUrl = none
      · rw [if_pos he] at h
        simp at h
      · rw [if_neg he] at h
        by_cases hsz : imageSize inp.imageUrl > 1040000
        · rw [if_pos hsz] at h
          simp at h
        · rw [if_neg hsz] at h
          unfold doSend at h
          simp only [Prod.mk.injEq, Except.ok.injEq] at h
          obtain ⟨hst, hm⟩ := h
          subst hst
          subst hm
          refine ⟨?_, rfl, rfl⟩
          intro hmem
          simp only [List.mem_map] at hmem
          obtain ⟨msg, hmsg, hid⟩ := hmem
          exact absurd hid (Nat.ne_of_lt (hwf msg hmsg))

/-- Witness for the amended C7 at a concrete send into a fresh conversation. -/
theorem send_fresh_id_client_timestamp_witness :
    (exMsg 5).id ∉ exSt0.log.map Message.id ∧
    (exMsg 5).createdAt = (exInp 5).now ∧
    (exStAfter 5).log = exSt0.log ++ [exMsg 5] :=
  send_fresh_id_client_timestamp exSt0 (exInp 5) (exStAfter 5) (exMsg 5)
    (by simp [exSt0]) rfl

/-! Helper lemmas about the string comparison of the identity deriver. -/

theorem lexLe_total : ∀ (as bs : List Char), lexLe as bs = true ∨ lexLe bs as = true
  | [], _ => Or.inl rfl
  | _ :: _, [] => Or.inr rfl
  | a :: as, b :: bs => by
    rcases lt_trichotomy a b with h | h | h
    · left
      simp [lexLe, h]
    · subst h
      rcases lexLe_total as bs with ih | ih
      · left
        simp [lexLe, lt_irrefl, ih]
      · right
        simp [lexLe, lt_irrefl, ih]
    · right
      simp [lexLe, h]

theorem lexLe_antisymm : ∀ (as bs : List Char),
    lexLe as bs = true → lexLe bs as = true → as = bs
  | [], [] => fun _ _ => rfl
  | [], _ :: _ => fun _ h2 => by simp [lexLe] at h2
  | _ :: _, [] => fun h1 _ => by simp [lexLe] at h1
  | a :: as, b :: bs => fun h1 h2 => by
    rcases lt_trichotomy a b with h | h | h
    · simp [lexLe, h, asymm h] at h2
    · subst h
      have h3 : lexLe as bs = true := by simpa [lexLe, lt_irrefl] using h1
      have h4 : lexLe bs as = true := by simpa [lexLe, lt_irrefl] using h2
      rw [lexLe_antisymm as bs h3 h4]
    · simp [lexLe, h, asymm h] at h1

theorem strLe_total (a b : String) : strLe a b = true ∨ strLe b a = true :=
  lexLe_total a.data b.data

theorem strLe_antisymm (a b : String) (h1 : strLe a b = true)
    (h2 : strLe b a = true) : a = b :=
  String.ext (lexLe_antisymm a.data b.data h1 h2)

/-- C1: the derived conversation identifier is commutative: deriving it from
`(a, b)` yields exactly the same string as deriving it from `(b, a)`. -/
theorem deriveConversationId_comm (a b : String) :
    deriveConversationId a b = deriveConversationId b a := by
  unfold deriveConversationId
  cases h1 : strLe a b with
  | true =>
    cases h2 : strLe b a with
    | true =>
      have hab := strLe_antisymm a b h1 h2
      subst hab
      rfl
    | false => simp
  | false =>
    cases h2 : strLe b a with
    | true => simp
    | false =>
      rcases strLe_total a b with h | h
      · rw [h1] at h
        exact absurd h (by simp)
      · rw [h2] at h
        exact absurd h (by simp)

/-! Helper lemmas for the collision analysis of the sorted-join scheme. -/

theorem sep_join_inj : ∀ (x y z w : List Char), '_' ∉ x → '_' ∉ z →
    x ++ '_' :: y = z ++ '_' :: w → x = z ∧ y = w
  | [], _, [], _ => fun _ _ h => by
    simp only [List.nil_append, List.cons.injEq] at h
    exact ⟨rfl, h.2⟩
  | [], _, c :: z, _ => fun _ hz h => by
    simp only [List.nil_append, List.cons_append, List.cons.injEq] at h
    exact (hz (by rw [h.1]; exact List.mem_cons_self c z)).elim
  | c :: x, _, [], _ => fun hx _ h => by
    simp only [List.nil_append, List.cons_append, List.cons.injEq] at h
    exact (hx (by rw [← h.1]; exact List.mem_cons_self c x)).elim
  | c :: x, y, d :: z, w => fun hx hz h => by
    simp only [List.cons_append, List.cons.injEq] at h
    obtain ⟨h1, h2⟩ := h
    obtain ⟨e1, e2⟩ := sep_join_inj x y z w
      (fun hm => hx (List.mem_cons_of_mem c hm))
      (fun hm => hz (List.mem_cons_of_mem d hm)) h2
    exact ⟨by rw [h1, e1], e2⟩

theorem join_data (a b : String) :
    (a ++ "_" ++ b).data = a.data ++ '_' :: b.data := by
  rw [String.data_append, String.data_append]
  simp

theorem join_inj (x y z w : String) (hx : '_' ∉ x.data) (hz : '_' ∉ z.data)
    (h : x ++ "_" ++ y = z ++ "_" ++ w) : x = z ∧ y = w := by
  have hd := congrArg String.data h
  rw [join_data, join_data] at hd
  obtain ⟨h1, h2⟩ := sep_join_inj _ _ _ _ hx hz hd
  exact ⟨String.ext h1, String.ext h2⟩

/-- Counterexample for C8 as stated over all identifier strings: the distinct
pairs `("_z_", "z_")` and `("_z_", "_z")` share the first element and differ in
the second, yet both derive the identifier `"_z__z_"`, because these
identifiers contain the separator character. -/
theorem derive_collision_counterexample :
    deriveConversationId "_z_" "z_" = deriveConversationId "_z_" "_z" ∧
    ("_z_" : String) ≠ "z_" ∧ ("z_" : String) ≠ "_z" :=
  ⟨by decide, by decide, by decide⟩

/-- C8 as amended: for identifiers that do not contain the separator
character, the sorted-join scheme is collision-free: with `b ≠ c` the pairs
`(a, b)` and `(a, c)` derive distinct conversation identifiers. -/
theorem deriveConversationId_inj (a b c : String)
    (ha : '_' ∉ a.data) (hb : '_' ∉ b.data) (hc : '_' ∉ c.data)
    (hbc : b ≠ c) :
    deriveConversationId a b ≠ deriveConversationId a c := by
  intro h
  unfold deriveConversationId at h
  by_cases h1 : strLe a b = true
  · rw [if_pos h1] at h
    by_cases h2 : strLe a c = true
    · rw [if_pos h2] at h
      exact hbc (join_inj a b a c ha ha h).2
    · rw [if_neg h2] at h
      obtain ⟨e1, e2⟩ := join_inj a b c a ha hc h
      exact hbc (e2.trans e1)
  · rw [if_neg h1] at h
    by_cases h2 : strLe a c = true
    · rw [if_pos h2] at h
      obtain ⟨e1, e2⟩ := join_inj b a a c hb ha h
      exact hbc (e1.trans e2)
    · rw [if_neg h2] at h
      exact hbc (join_inj b a c a hb hc h).1

/-- Witness for the amended C8 on separator-free identifiers. -/
theorem deriveConversationId_inj_witness :
    deriveConversationId "u1" "u2" ≠ deriveConversationId "u1" "u3" :=
  deriveConversationId_inj "u1" "u2" "u3" (by decide) (by decide) (by decide)
    (by decide)

/-! Helper lemmas for the subscription ordering. -/

theorem msgLe_trans : ∀ (a b c : Message),
    msgLe a b = true → msgLe b c = true → msgLe a c = true := by
  intro a b c h1 h2
  simp only [msgLe, Bool.or_eq_true, Bool.and_eq_true, Nat.blt_eq, Nat.ble_eq,
    Nat.beq_eq] at h1 h2 ⊢
  omega

theorem msgLe_total : ∀ (a b : Message), (msgLe a b || msgLe b a) = true := by
  intro a b
  simp only [msgLe, Bool.or_eq_true, Bool.and_eq_true, Nat.blt_eq, Nat.ble_eq,
    Nat.beq_eq]
  omega

theorem chronological_pairwise : ∀ (log : List Message), chronological log = true →
    List.Pairwise (fun m1 m2 : Message => m1.createdAt < m2.createdAt) log
  | [] => fun _ => List.Pairwise.nil
  | [_] => fun _ => by simp
  | m1 :: m2 :: rest => fun h => by
    have h2 : decide (m1.createdAt < m2.createdAt) = true ∧
        chronological (m2 :: rest) = true := by
      simpa [chronological, Bool.and_eq_true] using h
    have h12 : m1.createdAt < m2.createdAt := of_decide_eq_true h2.1
    have ih := chronological_pairwise (m2 :: rest) h2.2
    constructor
    · intro b hb
      rcases List.mem_cons.mp hb with hb' | hb'
      · rw [hb']
        exact h12
      · exact Nat.lt_trans h12 ((List.pairwise_cons.mp ih).1 b hb')
    · exact ih

/-- C6: a subscriber to one conversation observes the messages totally ordered
by creation timestamp ascending with ties broken by log-assigned identifier
ascending; and a log appended in sequence at increasing timestamps is observed
exactly in its append order. -/
theorem subscriber_observes_sorted (log : List Message) :
    List.Pairwise (fun m1 m2 : Message =>
        m1.createdAt < m2.createdAt ∨
          (m1.createdAt = m2.createdAt ∧ m1.id ≤ m2.id))
      (subscribeView log) ∧
    (chronological log = true → subscribeView log = log) := by
  constructor
  · have hs := List.sorted_mergeSort msgLe_trans msgLe_total log
    refine hs.imp ?_
    intro a b hab
    simpa only [msgLe, Bool.or_eq_true, Bool.and_eq_true, Nat.blt_eq,
      Nat.ble_eq, Nat.beq_eq] using hab
  · intro hc
    unfold subscribeView
    apply List.mergeSort_of_sorted
    refine (chronological_pairwise log hc).imp ?_
    intro a b hab
    simp only [msgLe, Bool.or_eq_true, Bool.and_eq_true, Nat.blt_eq,
      Nat.ble_eq, Nat.beq_eq]
    omega

/-- Witness for C6 at a concrete three-message log appended at timestamps
1, 2, 3: the subscriber sees the messages sorted and in append order. -/
theorem subscriber_observes_sorted_witness :
    List.Pairwise (fun m1 m2 : Message =>
        m1.createdAt < m2.createdAt ∨
          (m1.createdAt = m2.createdAt ∧ m1.id ≤ m2.id))
      (subscribeView exLog3) ∧
    subscribeView exLog3 = exLog3 :=
  ⟨(subscriber_observes_sorted exLog3).1,
    (subscriber_observes_sorted exLog3).2 (by decide)⟩

/-- Counterexample for C10 as stated: at 29 days plus 1 millisecond after the
stored last change (2505600001 ms), fewer than 30 days (2592000000 ms) have
passed, yet `Math.ceil` makes `calculateDaysSinceLastChange` return 30, the
cooldown check passes, and the username change goes through. -/
theorem username_cooldown_counterexample :
    handleUpdateUsername exProf "abc" 2505600001
      = ({ username := "abc", lastUsernameChange := some 2505600001 }, none) ∧
    ((2505600001 : Int) - 0).natAbs < 30 * 86400000 :=
  ⟨by decide, by decide⟩

/-- C10 as amended: with an acceptable name length, a username-change request
with a stored last-change timestamp is rejected before any remote write
exactly when at most 29 days (29·86400000 ms) have elapsed since it (the
ceiling of the elapsed-day count being below 30), and goes through once more
than 29 days have elapsed; a user with no recorded last change (treated as 31
days) always passes the cooldown; a successful change stores the time of the
change as the new last-change timestamp. -/
theorem username_cooldown_amended (st : ProfileState) (newUsername : String)
    (now last : Int) (hlen : ¬ newUsername.length < 3) :
    (st.lastUsernameChange = some last →
      (now - last).natAbs ≤ 29 * 86400000 →
      handleUpdateUsername st newUsername now
        = (st, some UsernameError.cooldownActive)) ∧
    (st.lastUsernameChange = some last →
      29 * 86400000 < (now - last).natAbs →
      handleUpdateUsername st newUsername now
        = ({ username := newUsername, lastUsernameChange := some now }, none)) ∧
    (st.lastUsernameChange = none →
      handleUpdateUsername st newUsername now
        = ({ username := newUsername, lastUsernameChange := some now }, none)) := by
  refine ⟨fun hl hd => ?_, fun hl hd => ?_, fun hl => ?_⟩
  · have hdays : calculateDaysSinceLastChange st.lastUsernameChange now < 30 := by
      simp only [calculateDaysSinceLastChange, hl]
      omega
    unfold handleUpdateUsername
    rw [if_neg hlen, if_pos hdays]
  · have hdays : ¬ calculateDaysSinceLastChange st.lastUsernameChange now < 30 := by
      simp only [calculateDaysSinceLastChange, hl]
      omega
    unfold handleUpdateUsername
    rw [if_neg hlen, if_neg hdays]
  · have hdays : ¬ calculateDaysSinceLastChange st.lastUsernameChange now < 30 := by
      simp only [calculateDaysSinceLastChange, hl]
      omega
    unfold handleUpdateUsername
    rw [if_neg hlen, if_neg hdays]

/-- Witness for the amended C10: exactly 29 days after the last change the
request is still rejected with the cooldown error. -/
theorem username_cooldown_amended_witness :
    handleUpdateUsername exProf "abc" 2505600000
      = (exProf, some UsernameError.cooldownActive) :=
  (username_cooldown_amended exProf "abc" 2505600000 0 (by decide)).1 rfl
    (by decide)
